import Mathlib

/-!
Verification of the authentication-and-retry core of the Siigo HTTP client
(`src/siigo-client.ts`).  The TypeScript code is shallowly embedded: the
client's mutable fields become an explicit `ClientState`, the network is an
oracle (`AttemptOutcome` per physical attempt, plus an auth-endpoint
response), JavaScript values flowing through the error formatter are a
`Json` inductive, and the retry loop of `SiigoClient.request` is a
recursive function producing the result together with a trace of the
headers sent per physical attempt and the delays slept between attempts.
-/

namespace Siigo

/-! ### Configuration constants (siigo-client.ts lines 7-9) -/

def MAX_RETRIES : Nat := 3

def INITIAL_RETRY_DELAY_MS : Int := 1000

def RETRYABLE_STATUS_CODES : List Nat := [429, 500, 502, 503, 504]

/-! ### JavaScript/JSON value model

`Json` models the runtime values that appear as response bodies.  The
declared TypeScript type of an error body is `SiigoError |
SiigoRateLimitError` (both object types), so a present body is a list of
string-keyed fields; absent or falsy bodies are `Option.none` at the use
site. -/

inductive Json where
  | null
  | bool (b : Bool)
  | num (n : Int)
  | str (s : String)
  | arr (items : List Json)
  | obj (fields : List (String × Json))

/-- JavaScript truthiness of a JSON-representable value. -/
def jsTruthy : Json → Bool
  | .null => false
  | .bool b => b
  | .num n => n != 0
  | .str s => !s.isEmpty
  | .arr _ => true
  | .obj _ => true

/-- Property lookup on an object's field list (first match, as produced by
a JSON parse, whose objects carry unique keys). -/
def jsGet (fields : List (String × Json)) (key : String) : Option Json :=
  match fields with
  | [] => none
  | (k, v) :: rest => if k = key then some v else jsGet rest key

/-- Property access `j.key` on an arbitrary value: objects look the key up,
every other value yields `undefined` (`none`). -/
def jsGetProp (j : Json) (key : String) : Option Json :=
  match j with
  | .obj fields => jsGet fields key
  | _ => none

mutual

/-- JavaScript `String(v)` coercion, as used by template literals. -/
def jsToStr : Json → String
  | .null => "null"
  | .bool b => if b then "true" else "false"
  | .num n => toString n
  | .str s => s
  | .arr items => String.intercalate "," (jsToStrJoin items)
  | .obj _ => "[object Object]"

/-- Element rendering for `Array.prototype.join`: `null` renders empty. -/
def jsToStrJoin : List Json → List String
  | [] => []
  | .null :: rest => "" :: jsToStrJoin rest
  | j :: rest => jsToStr j :: jsToStrJoin rest

end

/-- Template-literal interpolation of a possibly-undefined value:
`undefined` renders as the string "undefined". -/
def jsTemplateOpt (v : Option Json) : String :=
  match v with
  | none => "undefined"
  | some j => jsToStr j

/-- Template-literal interpolation of a possibly-undefined number (the
`error.response?.status` position). -/
def jsTemplateNatOpt (v : Option Nat) : String :=
  match v with
  | none => "undefined"
  | some n => toString n

def escapeJsonChar (c : Char) : String :=
  if c = '"' then "\\\""
  else if c = '\\' then "\\\\"
  else if c = '\n' then "\\n"
  else if c = '\r' then "\\r"
  else if c = '\t' then "\\t"
  else String.singleton c

def escapeJsonString (s : String) : String :=
  String.join (s.data.map escapeJsonChar)

mutual

/-- JavaScript `JSON.stringify` on a JSON value. -/
def jsonStringify : Json → String
  | .null => "null"
  | .bool b => if b then "true" else "false"
  | .num n => toString n
  | .str s => "\"" ++ escapeJsonString s ++ "\""
  | .arr items => "[" ++ String.intercalate "," (jsonStringifyList items) ++ "]"
  | .obj fields => "\x7b" ++ String.intercalate "," (jsonStringifyFields fields) ++ "\x7d"

def jsonStringifyList : List Json → List String
  | [] => []
  | j :: rest => jsonStringify j :: jsonStringifyList rest

def jsonStringifyFields : List (String × Json) → List String
  | [] => []
  | (k, v) :: rest =>
      ("\"" ++ escapeJsonString k ++ "\":" ++ jsonStringify v) :: jsonStringifyFields rest

end

/-! ### Axios error model

`AxiosResponse` is the slice of an axios response the client reads: the
HTTP status, the parsed body (`none` when absent or falsy), and the
`retry-after` header.  `AxiosErr` is the slice of an `AxiosError`: its
transport message and optional response. -/

structure AxiosResponse where
  status : Nat
  data : Option (List (String × Json))
  retryAfter : Option String

structure AxiosErr where
  message : String
  response : Option AxiosResponse

/-- The `retry-after` header of the failing response, if any
(`axiosError.response?.headers?.['retry-after']`). -/
def retryAfterOf (e : AxiosErr) : Option String :=
  e.response.bind AxiosResponse.retryAfter

/-! ### Error classification and formatting (siigo-client.ts lines 63-109) -/

/-- SiigoClient.isRetryableError: network errors (no response) are
retryable; otherwise retryable iff the status is in the retryable list. -/
def isRetryableError (error : AxiosErr) : Bool :=
  match error.response with
  | none => true
  | some r => RETRYABLE_STATUS_CODES.contains r.status

/-- JavaScript `parseInt(s, 10)`: skip leading whitespace, optional sign,
then the maximal run of decimal digits; `NaN` (here `none`) if that run is
empty. -/
def jsParseInt (s : String) : Option Int :=
  let cs := s.data.dropWhile Char.isWhitespace
  let signed : List Char × Bool :=
    match cs with
    | '-' :: rest => (rest, true)
    | '+' :: rest => (rest, false)
    | _ => (cs, false)
  let digits := signed.1.takeWhile Char.isDigit
  if digits.isEmpty then none
  else
    let n : Nat := digits.foldl (fun acc c => acc * 10 + (c.toNat - '0'.toNat)) 0
    some (if signed.2 then -(n : Int) else (n : Int))

/-- SiigoClient.getRetryDelay: honor a truthy `Retry-After` header whose
value parses to a number, otherwise exponential backoff. -/
def getRetryDelay (attempt : Nat) (retryAfterHeader : Option String) : Int :=
  let parsed : Option Int :=
    match retryAfterHeader with
    | some h => if h.isEmpty then none else jsParseInt h
    | none => none
  match parsed with
  | some n => n * 1000
  | none => INITIAL_RETRY_DELAY_MS * 2 ^ attempt

/-- One entry of the Errors array rendered as
`Code: Message` with ` - Detail` appended when `Detail` is truthy. -/
def renderSiigoErrorItem (e : Json) : String :=
  jsTemplateOpt (jsGetProp e "Code") ++ ": " ++ jsTemplateOpt (jsGetProp e "Message") ++
    (match jsGetProp e "Detail" with
     | some d => if jsTruthy d then " - " ++ jsToStr d else ""
     | none => "")

/-- SiigoClient.formatErrorMessage: no body yields the transport fallback;
a string-typed `Message` field yields the rate-limit rendering; an
array-typed `Errors` field yields the joined error list; otherwise the raw
JSON serialization of the body. -/
def formatErrorMessage (error : AxiosErr) : String :=
  let data := error.response.bind AxiosResponse.data
  let status := error.response.map AxiosResponse.status
  match data with
  | none => "HTTP " ++ jsTemplateNatOpt status ++ ": " ++ error.message
  | some fields =>
    match jsGet fields "Message" with
    | some (.str msg) => jsTemplateOpt (jsGet fields "Status") ++ ": " ++ msg
    | _ =>
      match jsGet fields "Errors" with
      | some (.arr errs) => String.intercalate "; " (errs.map renderSiigoErrorItem)
      | _ => jsonStringify (.obj fields)

/-! ### Client state and token lifecycle (siigo-client.ts lines 33-124)

The mutable instance fields `accessToken`/`tokenExpiry` together with the
construction-time credentials form `ClientState`.  `Date` values are
millisecond timestamps (`Int`).  The network is an oracle: the auth
endpoint's behavior for this call is an `Except AxiosErr TokenResponse`. -/

structure ClientState where
  accessToken : Option String
  tokenExpiry : Option Int
  username : String
  accessKey : String
  deriving DecidableEq

structure TokenResponse where
  access_token : String
  expires_in : Int
  deriving DecidableEq

/-- The body of one POST to the auth endpoint. -/
structure AuthPayload where
  username : String
  access_key : String
  deriving DecidableEq

/-- When the cache misses, SiigoClient.authenticate POSTs the stored
credentials to /auth and replaces the token wholesale; expiry is
`Date.now() + expires_in * 1000 - 60000`.  An auth-endpoint failure
propagates and leaves the state untouched.  The third component lists the
auth requests performed (their payloads, in order). -/
def refreshToken (st : ClientState) (now : Int)
    (authResult : Except AxiosErr TokenResponse) :
    Except AxiosErr String × ClientState × List AuthPayload :=
  match authResult with
  | .error e => (.error e, st, [⟨st.username, st.accessKey⟩])
  | .ok tr =>
      (.ok tr.access_token,
       { st with accessToken := some tr.access_token,
                 tokenExpiry := some (now + tr.expires_in * 1000 - 60000) },
       [⟨st.username, st.accessKey⟩])

/-- SiigoClient.authenticate: `if (this.accessToken && this.tokenExpiry &&
new Date() < this.tokenExpiry) return this.accessToken;` — a truthy cached
token (non-empty string) whose expiry is strictly in the future is
returned unchanged with no network call; otherwise refresh. -/
def authenticate (st : ClientState) (now : Int)
    (authResult : Except AxiosErr TokenResponse) :
    Except AxiosErr String × ClientState × List AuthPayload :=
  match st.accessToken, st.tokenExpiry with
  | some t, some e =>
      if ¬t.isEmpty ∧ now < e then (.ok t, st, [])
      else refreshToken st now authResult
  | _, _ => refreshToken st now authResult

/-! ### Header merge (siigo-client.ts lines 143-146)

A JavaScript object is a key-to-value map; the object literal
`{ Authorization: Bearer <token>, ...headers }` is a right-biased merge:
the spread's value wins on every key collision. -/

def HeaderMap : Type := String → Option String

/-- The engine's own header object before the spread. -/
def baseAuthHeader (token : String) : HeaderMap :=
  fun k => if k = "Authorization" then some ("Bearer " ++ token) else none

/-- The headers object sent on each attempt: the caller's entry wins on a
collision, the engine's `Authorization` fills every key the caller did not
supply, and an absent caller map (`undefined`) spreads nothing. -/
def buildHeaders (token : String) (extra : Option HeaderMap) : HeaderMap :=
  fun k =>
    match extra with
    | some f =>
        match f k with
        | some v => some v
        | none => baseAuthHeader token k
    | none => baseAuthHeader token k

/-! ### The retry loop of SiigoClient.request (siigo-client.ts lines 126-184) -/

inductive HttpMethod where
  | GET
  | POST
  | PUT
  | DELETE
  deriving DecidableEq

/-- What one physical HTTP attempt does: succeed with a decoded body,
throw an axios error, or throw a non-axios value. -/
inductive AttemptOutcome where
  | success (body : Json)
  | axiosFailure (e : AxiosErr)
  | otherFailure (name : String)

/-- What `request` can raise: the normalized error built at lines 170-175
(message plus `statusCode`/`endpoint`/`method` properties), a raw axios
error propagated without normalization, or a raw non-axios value. -/
inductive Thrown where
  | normalized (message : String) (statusCode : Option Nat)
      (endpoint : String) (method : HttpMethod)
  | rawAxios (e : AxiosErr)
  | rawOther (name : String)

/-- Whether a raised value carries the engine's structured metadata
(statusCode/endpoint/method properties attached at lines 173-175). -/
def hasStructuredMetadata : Thrown → Bool
  | .normalized _ _ _ _ => true
  | .rawAxios _ => false
  | .rawOther _ => false

/-- Result of running the attempt loop: the value returned or raised, the
headers object sent on each physical attempt (in order), and the delays
slept between attempts (in order). -/
structure RunResult where
  result : Except Thrown Json
  headersSent : List HeaderMap
  sleeps : List Int

/-- The `for (let attempt = 0; attempt <= MAX_RETRIES; attempt++)` loop:
each iteration issues one physical attempt with the same headers; a
retryable axios failure below the retry budget sleeps `getRetryDelay` and
continues; any other failure breaks out and the (possibly normalized)
error is thrown. -/
def requestLoop (outcomes : Nat → AttemptOutcome) (hdrs : HeaderMap)
    (method : HttpMethod) (endpoint : String) (attempt : Nat) : RunResult :=
  match outcomes attempt with
  | .success body => ⟨.ok body, [hdrs], []⟩
  | .axiosFailure e =>
      if h : attempt < MAX_RETRIES ∧ isRetryableError e = true then
        let rest := requestLoop outcomes hdrs method endpoint (attempt + 1)
        ⟨rest.result, hdrs :: rest.headersSent,
         getRetryDelay attempt (retryAfterOf e) :: rest.sleeps⟩
      else
        ⟨.error (.normalized ("Siigo API Error: " ++ formatErrorMessage e)
                   (e.response.map AxiosResponse.status) endpoint method),
         [hdrs], []⟩
  | .otherFailure name => ⟨.error (.rawOther name), [hdrs], []⟩
termination_by MAX_RETRIES + 1 - attempt
decreasing_by simp [MAX_RETRIES] at *; omega

/-- SiigoClient.request: authenticate first (outside the try/catch — an
auth failure propagates raw), then run the attempt loop with the bearer
header merged under the caller's extra headers.  Returns the run result,
the final client state, and the auth requests performed. -/
def request (st : ClientState) (now : Int)
    (authResult : Except AxiosErr TokenResponse)
    (outcomes : Nat → AttemptOutcome) (method : HttpMethod) (endpoint : String)
    (extraHeaders : Option HeaderMap) :
    RunResult × ClientState × List AuthPayload :=
  match authenticate st now authResult with
  | (.error e, st', reqs) => (⟨.error (.rawAxios e), [], []⟩, st', reqs)
  | (.ok token, st', reqs) =>
      (requestLoop outcomes (buildHeaders token extraHeaders) method endpoint 0,
       st', reqs)

/-! ### The specified formatting chain, for comparison with the code

The claim describes `formatErrorMessage` as an ordered chain keyed on two
exact body shapes.  `claimFormatChain` renders that description literally;
`amendedFormatChain` renders the chain the code actually implements (the
branch guards inspect only `Message`'s and `Errors`'s types). -/

/-- The string value of a field, when the field is present with string type. -/
def strField (fields : List (String × Json)) (key : String) : Option String :=
  match jsGet fields key with
  | some (.str s) => some s
  | _ => none

/-- The numeric value of a field, when the field is present with number type. -/
def numField (fields : List (String × Json)) (key : String) : Option Int :=
  match jsGet fields key with
  | some (.num n) => some n
  | _ => none

/-- The array value of a field, when the field is present with array type. -/
def arrField (fields : List (String × Json)) (key : String) : Option (List Json) :=
  match jsGet fields key with
  | some (.arr items) => some items
  | _ => none

/-- Modelled from the claim's words: the body matches the rate-limit shape
`\x7b Status: string, Message: string \x7d`. -/
def claimRateLimitShape (fields : List (String × Json)) : Bool :=
  (strField fields "Status").isSome && (strField fields "Message").isSome

/-- Modelled from the claim's words: the body matches the shape
`\x7b Status: number, Errors: [...] \x7d`. -/
def claimErrorsShape (fields : List (String × Json)) : Bool :=
  (numField fields "Status").isSome && (arrField fields "Errors").isSome

/-- Modelled from the claim's words: the ordered fallback chain exactly as
the claim states it, with both branch guards requiring their full shape. -/
def claimFormatChain (error : AxiosErr) : String :=
  match error.response.bind AxiosResponse.data with
  | none =>
      "HTTP " ++ jsTemplateNatOpt (error.response.map AxiosResponse.status) ++
        ": " ++ error.message
  | some fields =>
      if claimRateLimitShape fields then
        ((strField fields "Status").getD "") ++ ": " ++
          ((strField fields "Message").getD "")
      else if claimErrorsShape fields then
        String.intercalate "; "
          (((arrField fields "Errors").getD []).map renderSiigoErrorItem)
      else jsonStringify (.obj fields)

/-- The chain the code implements: the rate-limit branch fires whenever the
body carries a string-typed `Message` field (the type and presence of
`Status` are not checked; `Status` is interpolated as-is, rendering as
"undefined" when absent), and the errors branch fires whenever the body
carries an array-typed `Errors` field (`Status` is not checked). -/
def amendedFormatChain (error : AxiosErr) : String :=
  match error.response.bind AxiosResponse.data with
  | none =>
      "HTTP " ++ jsTemplateNatOpt (error.response.map AxiosResponse.status) ++
        ": " ++ error.message
  | some fields =>
      if (strField fields "Message").isSome then
        jsTemplateOpt (jsGet fields "Status") ++ ": " ++
          ((strField fields "Message").getD "")
      else if (arrField fields "Errors").isSome then
        String.intercalate "; "
          (((arrField fields "Errors").getD []).map renderSiigoErrorItem)
      else jsonStringify (.obj fields)

/-! ### Unfolding and trace lemmas for the retry loop -/

lemma requestLoop_success (o : Nat → AttemptOutcome) (h : HeaderMap)
    (m : HttpMethod) (ep : String) (attempt : Nat) (body : Json)
    (ho : o attempt = .success body) :
    requestLoop o h m ep attempt = ⟨.ok body, [h], []⟩ := by
  rw [requestLoop, ho]

lemma requestLoop_retry (o : Nat → AttemptOutcome) (h : HeaderMap)
    (m : HttpMethod) (ep : String) (attempt : Nat) (e : AxiosErr)
    (ho : o attempt = .axiosFailure e)
    (h1 : attempt < MAX_RETRIES) (h2 : isRetryableError e = true) :
    requestLoop o h m ep attempt =
      ⟨(requestLoop o h m ep (attempt + 1)).result,
       h :: (requestLoop o h m ep (attempt + 1)).headersSent,
       getRetryDelay attempt (retryAfterOf e) ::
         (requestLoop o h m ep (attempt + 1)).sleeps⟩ := by
  rw [requestLoop, ho]
  simp only [dif_pos (And.intro h1 h2)]

lemma requestLoop_stopAxios (o : Nat → AttemptOutcome) (h : HeaderMap)
    (m : HttpMethod) (ep : String) (attempt : Nat) (e : AxiosErr)
    (ho : o attempt = .axiosFailure e)
    (hn : ¬(attempt < MAX_RETRIES ∧ isRetryableError e = true)) :
    requestLoop o h m ep attempt =
      ⟨.error (.normalized ("Siigo API Error: " ++ formatErrorMessage e)
                 (e.response.map AxiosResponse.status) ep m),
       [h], []⟩ := by
  rw [requestLoop, ho]
  simp only [dif_neg hn]

lemma requestLoop_other (o : Nat → AttemptOutcome) (h : HeaderMap)
    (m : HttpMethod) (ep : String) (attempt : Nat) (name : String)
    (ho : o attempt = .otherFailure name) :
    requestLoop o h m ep attempt = ⟨.error (.rawOther name), [h], []⟩ := by
  rw [requestLoop, ho]

/-- Combined trace facts: with enough budget left, the loop performs at
most `k + 1` physical attempts, every attempt sends the same headers
object, and there is exactly one fewer sleep than attempts. -/
lemma requestLoop_trace (o : Nat → AttemptOutcome) (h : HeaderMap)
    (m : HttpMethod) (ep : String) :
    ∀ k attempt, MAX_RETRIES ≤ attempt + k →
      (requestLoop o h m ep attempt).headersSent.length ≤ k + 1
      ∧ (∀ hm ∈ (requestLoop o h m ep attempt).headersSent, hm = h)
      ∧ (requestLoop o h m ep attempt).sleeps.length + 1 =
          (requestLoop o h m ep attempt).headersSent.length := by
  intro k
  induction k with
  | zero =>
      intro attempt hk
      cases ho : o attempt with
      | success body => rw [requestLoop_success o h m ep attempt body ho]; simp
      | axiosFailure e =>
          have hn : ¬(attempt < MAX_RETRIES ∧ isRetryableError e = true) := by
            intro hc; omega
          rw [requestLoop_stopAxios o h m ep attempt e ho hn]; simp
      | otherFailure name => rw [requestLoop_other o h m ep attempt name ho]; simp
  | succ n ih =>
      intro attempt hk
      cases ho : o attempt with
      | success body => rw [requestLoop_success o h m ep attempt body ho]; simp
      | axiosFailure e =>
          by_cases hc : attempt < MAX_RETRIES ∧ isRetryableError e = true
          · rw [requestLoop_retry o h m ep attempt e ho hc.1 hc.2]
            have hrec := ih (attempt + 1) (by omega)
            refine ⟨?_, ?_, ?_⟩
            · simpa using hrec.1
            · intro hm hmem
              rcases List.mem_cons.mp hmem with hmem | hmem
              · exact hmem
              · exact hrec.2.1 hm hmem
            · simpa using hrec.2.2
          · rw [requestLoop_stopAxios o h m ep attempt e ho hc]; simp
      | otherFailure name => rw [requestLoop_other o h m ep attempt name ho]; simp

/-- The authenticate operation performs at most one auth-endpoint request. -/
lemma authenticate_calls_le_one (st : ClientState) (now : Int)
    (ar : Except AxiosErr TokenResponse) :
    (authenticate st now ar).2.2.length ≤ 1 := by
  unfold authenticate refreshToken
  cases st.accessToken <;> cases st.tokenExpiry <;> cases ar <;>
    simp <;> split <;> simp

/-! ### Claim theorems -/

/-- C2: if a cached (truthy) token exists and the current time is strictly
before the stored expiry timestamp (which already has the 60-second margin
subtracted at store time), authenticate returns the cached token string
unchanged, performs zero network calls, and leaves the whole client state
(in particular accessToken and tokenExpiry) unmodified. -/
theorem c2_token_reuse (st : ClientState) (now : Int)
    (ar : Except AxiosErr TokenResponse) (t : String) (e : Int)
    (h1 : st.accessToken = some t) (h2 : ¬t.isEmpty)
    (h3 : st.tokenExpiry = some e) (h4 : now < e) :
    authenticate st now ar = (.ok t, st, []) := by
  simp only [authenticate, h1, h3]
  rw [if_pos ⟨h2, h4⟩]

theorem c2_token_reuse_witness :
    authenticate ⟨some "tok", some 1000, "u", "k"⟩ 5 (.ok ⟨"new", 7200⟩) =
      (.ok "tok", ⟨some "tok", some 1000, "u", "k"⟩, []) :=
  c2_token_reuse ⟨some "tok", some 1000, "u", "k"⟩ 5 (.ok ⟨"new", 7200⟩)
    "tok" 1000 rfl (by decide) rfl (by decide)

/-- C3: if no cached token exists (or no expiry is stored), or the current
time is at or past the cached token's validity cutoff, authenticate
performs exactly one authentication request carrying the stored
credentials, replaces the cached token wholesale with the returned
access_token, sets the cached expiry to issue-time plus expires_in seconds
minus the 60-second safety margin, and returns the new token string. -/
theorem c3_token_refresh (st : ClientState) (now : Int) (tr : TokenResponse)
    (h : st.accessToken = none ∨ st.tokenExpiry = none ∨
         ∃ e, st.tokenExpiry = some e ∧ e ≤ now) :
    authenticate st now (.ok tr) =
      (.ok tr.access_token,
       { st with accessToken := some tr.access_token,
                 tokenExpiry := some (now + tr.expires_in * 1000 - 60000) },
       [⟨st.username, st.accessKey⟩]) := by
  cases hA : st.accessToken with
  | none => simp [authenticate, refreshToken, hA]
  | some t =>
      cases hE : st.tokenExpiry with
      | none => simp [authenticate, refreshToken, hA, hE]
      | some e =>
          have hle : e ≤ now := by
            rcases h with h | h | ⟨e', he', hle⟩
            · rw [hA] at h; cases h
            · rw [hE] at h; cases h
            · rw [hE] at he'; injection he' with he''; omega
          simp only [authenticate, hA, hE]
          rw [if_neg (fun hc => absurd hc.2 (not_lt.mpr hle))]
          rfl

theorem c3_token_refresh_witness :
    authenticate ⟨none, none, "u", "k"⟩ 0 (.ok ⟨"newtok", 86400⟩) =
      (.ok "newtok",
       ⟨some "newtok", some (0 + 86400 * 1000 - 60000), "u", "k"⟩,
       [⟨"u", "k"⟩]) :=
  c3_token_refresh ⟨none, none, "u", "k"⟩ 0 ⟨"newtok", 86400⟩ (Or.inl rfl)

/-- C8: absent a Retry-After header, the retry delay computed for attempt
index n equals exactly 1000·2^n milliseconds with no jitter; in particular
the successive delays for attempts 0, 1, 2 are 1000, 2000 and 4000 ms. -/
theorem c8_backoff_schedule :
    (∀ n : Nat, getRetryDelay n none = 1000 * 2 ^ n)
    ∧ getRetryDelay 0 none = 1000
    ∧ getRetryDelay 1 none = 2000
    ∧ getRetryDelay 2 none = 4000 := by
  refine ⟨fun n => rfl, ?_, ?_, ?_⟩ <;> decide

/-- C9: caller-supplied extra headers are spread after the engine's
Authorization entry, so on every key collision the caller's value wins: a
caller-supplied "Authorization" entry replaces the bearer header, an
absent caller entry leaves the engine's value, and with no caller map at
all the engine's headers are sent as-is. -/
theorem c9_header_merge :
    (∀ (token : String) (f : HeaderMap) (v : String),
        f "Authorization" = some v →
        buildHeaders token (some f) "Authorization" = some v)
    ∧ (∀ (token : String) (f : HeaderMap),
        f "Authorization" = none →
        buildHeaders token (some f) "Authorization" =
          some ("Bearer " ++ token))
    ∧ (∀ (token k : String) (f : HeaderMap),
        f k = none → buildHeaders token (some f) k = baseAuthHeader token k)
    ∧ (∀ token k : String,
        buildHeaders token none k = baseAuthHeader token k) := by
  refine ⟨?_, ?_, ?_, ?_⟩
  · intro token f v hf; simp [buildHeaders, hf]
  · intro token f hf; simp [buildHeaders, hf, baseAuthHeader]
  · intro token k f hf; simp [buildHeaders, hf]
  · intro token k; rfl

theorem c9_header_merge_witness :
    buildHeaders "tok"
        (some fun k => if k = "Authorization" then some "custom" else none)
        "Authorization" = some "custom"
    ∧ buildHeaders "tok" (some fun _ => none) "Authorization" =
        some ("Bearer " ++ "tok")
    ∧ buildHeaders "tok" (some fun _ => none) "X-Other" =
        baseAuthHeader "tok" "X-Other" :=
  ⟨c9_header_merge.1 "tok" _ "custom" (by decide),
   c9_header_merge.2.1 "tok" _ rfl,
   c9_header_merge.2.2.1 "tok" "X-Other" _ rfl⟩

/-- A header value that parses to an integer is in particular non-empty,
so the truthiness guard in getRetryDelay cannot reject it. -/
lemma getRetryDelay_of_parse (h : String) (n : Int)
    (hp : jsParseInt h = some n) :
    ∀ attempt : Nat, getRetryDelay attempt (some h) = n * 1000 := by
  intro attempt
  have hne : h.isEmpty = false := by
    cases hg : h.isEmpty
    · rfl
    · exfalso
      have : h = "" := (String.isEmpty_iff h).mp hg
      rw [this] at hp
      cases hp
  simp [getRetryDelay, hne, hp]

/-- C6: whenever a retry is scheduled and the failing response carries a
Retry-After header whose value parses (as JavaScript parseInt) to an
integer n, the computed delay equals exactly n × 1000 ms, regardless of
the attempt index and of the response's status; when the header is absent
or does not parse, the delay is the exponential fallback for that attempt
index.  The last conjunct ties this to the loop: the sleep actually
performed before the scheduled retry is that computed delay. -/
theorem c6_retry_after :
    (∀ (attempt : Nat) (h : String) (n : Int),
        jsParseInt h = some n → getRetryDelay attempt (some h) = n * 1000)
    ∧ (∀ (attempt : Nat) (h : String),
        jsParseInt h = none →
        getRetryDelay attempt (some h) = INITIAL_RETRY_DELAY_MS * 2 ^ attempt)
    ∧ (∀ attempt : Nat,
        getRetryDelay attempt none = INITIAL_RETRY_DELAY_MS * 2 ^ attempt)
    ∧ (∀ (o : Nat → AttemptOutcome) (hd : HeaderMap) (m : HttpMethod)
         (ep : String) (attempt : Nat) (e : AxiosErr) (hs : String) (n : Int),
        o attempt = .axiosFailure e →
        attempt < MAX_RETRIES → isRetryableError e = true →
        retryAfterOf e = some hs → jsParseInt hs = some n →
        (requestLoop o hd m ep attempt).sleeps.head? = some (n * 1000)) := by
  refine ⟨fun attempt h n hp => getRetryDelay_of_parse h n hp attempt,
          ?_, fun attempt => rfl, ?_⟩
  · intro attempt h hp
    simp [getRetryDelay, hp]
  · intro o hd m ep attempt e hs n ho hlt hr hra hp
    rw [requestLoop_retry o hd m ep attempt e ho hlt hr]
    simp only [List.head?]
    rw [hra, getRetryDelay_of_parse hs n hp attempt]

theorem c6_retry_after_witness :
    getRetryDelay 2 (some "5") = 5 * 1000
    ∧ getRetryDelay 1 (some "nope") = INITIAL_RETRY_DELAY_MS * 2 ^ 1
    ∧ (requestLoop
          (fun _ => .axiosFailure ⟨"Request failed with status code 429",
             some ⟨429, none, some "5"⟩⟩)
          (baseAuthHeader "tok") .GET "/v1/products" 0).sleeps.head? =
        some ((5 : Int) * 1000) :=
  ⟨c6_retry_after.1 2 "5" 5 (by decide),
   c6_retry_after.2.1 1 "nope" (by decide),
   c6_retry_after.2.2.2
     (fun _ => .axiosFailure ⟨"Request failed with status code 429",
        some ⟨429, none, some "5"⟩⟩)
     (baseAuthHeader "tok") .GET "/v1/products" 0
     ⟨"Request failed with status code 429", some ⟨429, none, some "5"⟩⟩
     "5" 5 rfl (by decide) (by decide) rfl (by decide)⟩

/-- C7: a failure is classified retryable iff either no response was
received at all, or the received status is one of 429, 500, 502, 503,
504; consequently, for a first-attempt response with a status outside
that set the loop performs exactly one physical attempt, sleeps never,
and raises the normalized error immediately. -/
theorem c7_retryable_classification :
    (∀ e : AxiosErr, isRetryableError e = true ↔
        (e.response = none ∨
         ∃ r, e.response = some r ∧ r.status ∈ RETRYABLE_STATUS_CODES))
    ∧ (∀ (o : Nat → AttemptOutcome) (hd : HeaderMap) (m : HttpMethod)
         (ep : String) (e : AxiosErr) (r : AxiosResponse),
        o 0 = .axiosFailure e → e.response = some r →
        r.status ∉ RETRYABLE_STATUS_CODES →
        requestLoop o hd m ep 0 =
          ⟨.error (.normalized ("Siigo API Error: " ++ formatErrorMessage e)
                     (some r.status) ep m), [hd], []⟩) := by
  constructor
  · intro e
    cases hr : e.response with
    | none => simp [isRetryableError, hr]
    | some r =>
        simp [isRetryableError, hr, List.elem_iff]
  · intro o hd m ep e r ho hr hstat
    have hnotret : isRetryableError e = false := by
      simp [isRetryableError, hr, List.elem_iff, hstat]
    have := requestLoop_stopAxios o hd m ep 0 e ho
      (fun hc => by rw [hnotret] at hc; cases hc.2)
    rw [this, hr]
    simp

theorem c7_retryable_classification_witness :
    requestLoop
        (fun _ => .axiosFailure ⟨"Request failed with status code 400",
           some ⟨400, none, none⟩⟩)
        (baseAuthHeader "tok") .POST "/v1/invoices" 0 =
      ⟨.error (.normalized
          ("Siigo API Error: " ++ formatErrorMessage
            ⟨"Request failed with status code 400", some ⟨400, none, none⟩⟩)
          (some 400) "/v1/invoices" .POST),
       [baseAuthHeader "tok"], []⟩ :=
  c7_retryable_classification.2
    (fun _ => .axiosFailure ⟨"Request failed with status code 400",
       some ⟨400, none, none⟩⟩)
    (baseAuthHeader "tok") .POST "/v1/invoices"
    ⟨"Request failed with status code 400", some ⟨400, none, none⟩⟩
    ⟨400, none, none⟩ rfl rfl (by decide)

/-- C1: for every upstream behavior a single request call performs at most
MAX_RETRIES + 1 = 4 physical HTTP attempts and sleeps at most MAX_RETRIES
times (the attempt index never exceeds the configured maximum retry
count); against an upstream that returns an axios failure with status 503
on every attempt, request performs exactly 4 attempts and raises a
normalized error whose statusCode field is 503. -/
theorem c1_attempt_bound :
    (∀ (st : ClientState) (now : Int) (ar : Except AxiosErr TokenResponse)
       (o : Nat → AttemptOutcome) (m : HttpMethod) (ep : String)
       (xh : Option HeaderMap),
        (request st now ar o m ep xh).1.headersSent.length ≤ MAX_RETRIES + 1
        ∧ (request st now ar o m ep xh).1.sleeps.length ≤ MAX_RETRIES)
    ∧ (∀ (st : ClientState) (now : Int) (ar : Except AxiosErr TokenResponse)
         (o : Nat → AttemptOutcome) (m : HttpMethod) (ep : String)
         (xh : Option HeaderMap) (tok : String) (st2 : ClientState)
         (reqs : List AuthPayload) (e : AxiosErr) (r : AxiosResponse),
        authenticate st now ar = (.ok tok, st2, reqs) →
        (∀ i, o i = .axiosFailure e) →
        e.response = some r → r.status = 503 →
        (request st now ar o m ep xh).1.headersSent.length = MAX_RETRIES + 1
        ∧ (request st now ar o m ep xh).1.result =
            .error (.normalized ("Siigo API Error: " ++ formatErrorMessage e)
                      (some 503) ep m)) := by
  constructor
  · intro st now ar o m ep xh
    unfold request
    rcases ha : authenticate st now ar with ⟨res, st2, reqs⟩
    cases res with
    | error e => simp [MAX_RETRIES]
    | ok tok =>
        dsimp only
        have htrace := requestLoop_trace o (buildHeaders tok xh) m ep
          MAX_RETRIES 0 (by omega)
        have h1 := htrace.1
        have h3 := htrace.2.2
        exact ⟨h1, by omega⟩
  · intro st now ar o m ep xh tok st2 reqs e r ha ho hr hs
    have hretry : isRetryableError e = true := by
      simp [isRetryableError, hr, hs]
      decide
    have hstep : ∀ a : Nat, a < MAX_RETRIES →
        requestLoop o (buildHeaders tok xh) m ep a =
          ⟨(requestLoop o (buildHeaders tok xh) m ep (a + 1)).result,
           buildHeaders tok xh ::
             (requestLoop o (buildHeaders tok xh) m ep (a + 1)).headersSent,
           getRetryDelay a (retryAfterOf e) ::
             (requestLoop o (buildHeaders tok xh) m ep (a + 1)).sleeps⟩ :=
      fun a hlt => requestLoop_retry o (buildHeaders tok xh) m ep a e (ho a)
        hlt hretry
    have hlast : requestLoop o (buildHeaders tok xh) m ep 3 =
        ⟨.error (.normalized ("Siigo API Error: " ++ formatErrorMessage e)
                   (e.response.map AxiosResponse.status) ep m),
         [buildHeaders tok xh], []⟩ :=
      requestLoop_stopAxios o (buildHeaders tok xh) m ep 3 e
        (ho 3) (fun hc => absurd hc.1 (by decide))
    unfold request
    rw [ha]
    dsimp only
    rw [hstep 0 (by decide)]
    rw [show (0 + 1 : Nat) = 1 from rfl, hstep 1 (by decide)]
    rw [show (1 + 1 : Nat) = 2 from rfl, hstep 2 (by decide)]
    rw [show (2 + 1 : Nat) = 3 from rfl, hlast, hr]
    simp [MAX_RETRIES, hs]

theorem c1_attempt_bound_witness :
    (request ⟨some "tok", some 1000, "u", "k"⟩ 5 (.ok ⟨"x", 60⟩)
        (fun _ => .axiosFailure ⟨"Request failed with status code 503",
           some ⟨503, none, none⟩⟩)
        .GET "/v1/products" none).1.headersSent.length = MAX_RETRIES + 1
    ∧ (request ⟨some "tok", some 1000, "u", "k"⟩ 5 (.ok ⟨"x", 60⟩)
        (fun _ => .axiosFailure ⟨"Request failed with status code 503",
           some ⟨503, none, none⟩⟩)
        .GET "/v1/products" none).1.result =
        .error (.normalized
          ("Siigo API Error: " ++ formatErrorMessage
            ⟨"Request failed with status code 503", some ⟨503, none, none⟩⟩)
          (some 503) "/v1/products" .GET) :=
  c1_attempt_bound.2 ⟨some "tok", some 1000, "u", "k"⟩ 5 (.ok ⟨"x", 60⟩)
    (fun _ => .axiosFailure ⟨"Request failed with status code 503",
       some ⟨503, none, none⟩⟩)
    .GET "/v1/products" none "tok" ⟨some "tok", some 1000, "u", "k"⟩ []
    ⟨"Request failed with status code 503", some ⟨503, none, none⟩⟩
    ⟨503, none, none⟩ rfl (fun _ => rfl) rfl rfl

/-- C10: within a single request call the bearer token is obtained exactly
once, before the first physical attempt (at most one auth request is
performed, and the auth requests of the call are exactly those of the
initial authenticate); every physical attempt — including retries — sends
the same headers object built from that one token; and the retry loop
never mutates accessToken or tokenExpiry, so the client state when request
returns or raises equals the state left by the initial authenticate. -/
theorem c10_token_frame (st : ClientState) (now : Int)
    (ar : Except AxiosErr TokenResponse) (o : Nat → AttemptOutcome)
    (m : HttpMethod) (ep : String) (xh : Option HeaderMap)
    (tok : String) (st2 : ClientState) (reqs : List AuthPayload)
    (ha : authenticate st now ar = (.ok tok, st2, reqs)) :
    (request st now ar o m ep xh).2.1 = st2
    ∧ (request st now ar o m ep xh).2.2 = reqs
    ∧ reqs.length ≤ 1
    ∧ ∀ hm ∈ (request st now ar o m ep xh).1.headersSent,
        hm = buildHeaders tok xh := by
  have hcalls := authenticate_calls_le_one st now ar
  rw [ha] at hcalls
  unfold request
  rw [ha]
  exact ⟨rfl, rfl, hcalls,
    (requestLoop_trace o (buildHeaders tok xh) m ep MAX_RETRIES 0
      (by omega)).2.1⟩

theorem c10_token_frame_witness :
    (request ⟨some "tok", some 1000, "u", "k"⟩ 5 (.ok ⟨"x", 60⟩)
        (fun _ => .success .null) .GET "/v1/taxes" none).2.1 =
      ⟨some "tok", some 1000, "u", "k"⟩
    ∧ (request ⟨some "tok", some 1000, "u", "k"⟩ 5 (.ok ⟨"x", 60⟩)
        (fun _ => .success .null) .GET "/v1/taxes" none).2.2 =
      ([] : List AuthPayload)
    ∧ ([] : List AuthPayload).length ≤ 1 := by
  have h := c10_token_frame ⟨some "tok", some 1000, "u", "k"⟩ 5 (.ok ⟨"x", 60⟩)
    (fun _ => .success .null) .GET "/v1/taxes" none "tok"
    ⟨some "tok", some 1000, "u", "k"⟩ [] rfl
  exact ⟨h.1, h.2.1, h.2.2.1⟩

/-! ### C4: the formatting fallback chain -/

/-- A response body that matches the claim's list-of-errors shape
(`Status` is a number, `Errors` is an array) but also carries a
string-typed `Message` field, so it does not match the claim's rate-limit
shape (whose `Status` must be a string). -/
def mixedBodyErr : AxiosErr :=
  ⟨"Request failed with status code 400",
   some ⟨400,
     some [("Status", .num 400), ("Message", .str "oops"),
           ("Errors", .arr [.obj [("Code", .str "E"), ("Message", .str "m")]])],
     none⟩⟩

/-- C4 counterexample: the code keys its rate-limit branch on the presence
of a string-typed Message field alone and never checks Status's type, so
on `mixedBodyErr` it returns "400: oops", while the chain stated by the
claim (string Status required for the rate-limit branch, so the Errors
branch fires) returns "E: m". -/
theorem c4_format_chain_counterexample :
    formatErrorMessage mixedBodyErr = "400: oops"
    ∧ claimFormatChain mixedBodyErr = "E: m"
    ∧ formatErrorMessage mixedBodyErr ≠ claimFormatChain mixedBodyErr := by
  refine ⟨?_, ?_, ?_⟩ <;> decide

/-- The claim's worked example of the list shape. -/
def listShapeErr : AxiosErr :=
  ⟨"Request failed with status code 400",
   some ⟨400,
     some [("Status", .num 400),
           ("Errors", .arr [.obj [("Code", .str "ERR1"),
                                  ("Message", .str "Bad field"),
                                  ("Detail", .str "code required")]])],
     none⟩⟩

/-- The claim's worked example of the rate-limit shape. -/
def rateLimitErr : AxiosErr :=
  ⟨"Request failed with status code 429",
   some ⟨429,
     some [("Status", .str "TooManyRequests"), ("Message", .str "slow down")],
     none⟩⟩

/-- C4 (amended): formatErrorMessage follows the ordered fallback chain
with the guards the code actually uses — no body gives the transport
fallback; a body with a string-typed Message field gives
"<Status>: <Message>" (Status's type and presence are not checked, it is
interpolated as-is); otherwise a body with an array-typed Errors field
gives the joined "<Code>: <Message>[ - <Detail>]" list; otherwise the raw
JSON serialization — and both of the claim's worked examples format as the
claim states. -/
theorem c4_format_chain_amended :
    (∀ e : AxiosErr, formatErrorMessage e = amendedFormatChain e)
    ∧ formatErrorMessage listShapeErr = "ERR1: Bad field - code required"
    ∧ formatErrorMessage rateLimitErr = "TooManyRequests: slow down" := by
  refine ⟨?_, by decide, by decide⟩
  intro e
  unfold formatErrorMessage amendedFormatChain
  cases hd : e.response.bind AxiosResponse.data with
  | none => rfl
  | some fields =>
      cases hM : jsGet fields "Message" with
      | some jm =>
          cases jm with
          | str msg => simp [strField, hM]
          | null =>
              simp only [strField, hM, Option.isSome]
              cases hE : jsGet fields "Errors" with
              | some je => cases je <;> simp [arrField, hE]
              | none => simp [arrField, hE]
          | bool b =>
              simp only [strField, hM, Option.isSome]
              cases hE : jsGet fields "Errors" with
              | some je => cases je <;> simp [arrField, hE]
              | none => simp [arrField, hE]
          | num n =>
              simp only [strField, hM, Option.isSome]
              cases hE : jsGet fields "Errors" with
              | some je => cases je <;> simp [arrField, hE]
              | none => simp [arrField, hE]
          | arr items =>
              simp only [strField, hM, Option.isSome]
              cases hE : jsGet fields "Errors" with
              | some je => cases je <;> simp [arrField, hE]
              | none => simp [arrField, hE]
          | obj fs =>
              simp only [strField, hM, Option.isSome]
              cases hE : jsGet fields "Errors" with
              | some je => cases je <;> simp [arrField, hE]
              | none => simp [arrField, hE]
      | none =>
          simp only [strField, hM, Option.isSome]
          cases hE : jsGet fields "Errors" with
          | some je => cases je <;> simp [arrField, hE]
          | none => simp [arrField, hE]

/-! ### C5: which raised failures carry the structured metadata -/

/-- A transport-level failure of the auth endpoint itself. -/
def authConnRefused : AxiosErr :=
  ⟨"connect ECONNREFUSED api.siigo.com:443", none⟩

/-- C5 counterexample: authenticate runs outside the retry loop's
try/catch, so when token acquisition fails the raw error propagates to the
caller unchanged — without the normalized "Siigo API Error" message and
without the statusCode/endpoint/method metadata the claim promises for
every failure. -/
theorem c5_metadata_counterexample :
    (request ⟨none, none, "user", "key"⟩ 0 (.error authConnRefused)
        (fun _ => .success .null) .GET "/v1/products" none).1.result =
      .error (.rawAxios authConnRefused)
    ∧ hasStructuredMetadata (.rawAxios authConnRefused) = false :=
  ⟨rfl, rfl⟩

/-- C5 (amended): failures raised when the retry loop terminates on an
HTTP-level (axios) error are normalized and carry the full structured
metadata (message, statusCode when a response exists, endpoint, method);
but a token-acquisition failure propagates as the raw auth error, and a
non-axios failure inside the loop propagates as the raw value — both
without the structured metadata. -/
theorem c5_metadata_amended :
    (∀ (o : Nat → AttemptOutcome) (hd : HeaderMap) (m : HttpMethod)
       (ep : String) (attempt : Nat) (e : AxiosErr),
        o attempt = .axiosFailure e →
        ¬(attempt < MAX_RETRIES ∧ isRetryableError e = true) →
        (requestLoop o hd m ep attempt).result =
          .error (.normalized ("Siigo API Error: " ++ formatErrorMessage e)
                    (e.response.map AxiosResponse.status) ep m))
    ∧ (∀ (st : ClientState) (now : Int) (authErr : AxiosErr)
         (o : Nat → AttemptOutcome) (m : HttpMethod) (ep : String)
         (xh : Option HeaderMap),
        st.accessToken = none →
        (request st now (.error authErr) o m ep xh).1.result =
          .error (.rawAxios authErr)
        ∧ hasStructuredMetadata (.rawAxios authErr) = false)
    ∧ (∀ (o : Nat → AttemptOutcome) (hd : HeaderMap) (m : HttpMethod)
         (ep : String) (attempt : Nat) (name : String),
        o attempt = .otherFailure name →
        (requestLoop o hd m ep attempt).result = .error (.rawOther name)
        ∧ hasStructuredMetadata (.rawOther name) = false) := by
  refine ⟨?_, ?_, ?_⟩
  · intro o hd m ep attempt e ho hn
    rw [requestLoop_stopAxios o hd m ep attempt e ho hn]
  · intro st now authErr o m ep xh hA
    refine ⟨?_, rfl⟩
    unfold request authenticate
    rw [hA]
    cases st.tokenExpiry <;> rfl
  · intro o hd m ep attempt name ho
    rw [requestLoop_other o hd m ep attempt name ho]
    exact ⟨rfl, rfl⟩

theorem c5_metadata_amended_witness :
    (requestLoop
        (fun _ => .axiosFailure ⟨"Request failed with status code 400",
           some ⟨400, none, none⟩⟩)
        (baseAuthHeader "tok") .GET "/v1/products" 0).result =
      .error (.normalized
        ("Siigo API Error: " ++ formatErrorMessage
          ⟨"Request failed with status code 400", some ⟨400, none, none⟩⟩)
        (some 400) "/v1/products" .GET)
    ∧ (request ⟨none, none, "user", "key"⟩ 0 (.error ⟨"getaddrinfo ENOTFOUND", none⟩)
        (fun _ => .success .null) .POST "/v1/invoices" none).1.result =
      .error (.rawAxios ⟨"getaddrinfo ENOTFOUND", none⟩)
    ∧ (requestLoop (fun _ => .otherFailure "TypeError")
        (baseAuthHeader "tok") .PUT "/v1/products" 0).result =
      .error (.rawOther "TypeError") :=
  ⟨c5_metadata_amended.1
     (fun _ => .axiosFailure ⟨"Request failed with status code 400",
        some ⟨400, none, none⟩⟩)
     (baseAuthHeader "tok") .GET "/v1/products" 0
     ⟨"Request failed with status code 400", some ⟨400, none, none⟩⟩
     rfl (by decide),
   (c5_metadata_amended.2.1 ⟨none, none, "user", "key"⟩ 0
     ⟨"getaddrinfo ENOTFOUND", none⟩ (fun _ => .success .null)
     .POST "/v1/invoices" none rfl).1,
   (c5_metadata_amended.2.2 (fun _ => .otherFailure "TypeError")
     (baseAuthHeader "tok") .PUT "/v1/products" 0 "TypeError" rfl).1⟩

end Siigo
